import Mathlib

/-!
Shallow embedding of `src/frontend/src-tauri/src/onboarding.rs` (Verbatim).

The module persists a first-run wizard status in a document store
(`tauri_plugin_store`, one key `"status"` in `onboarding-status.json`) and,
on completion, writes model configuration to a relational settings store.

Modelling conventions:
* JSON values are the inductive `Json`; `serde` derive semantics for
  `OnboardingStatus` are `OnboardingStatus.toValue` / `OnboardingStatus.fromValue`
  (all fields required, field types checked, `u8` range checked, unknown
  fields ignored).
* Timestamps (`chrono::Utc::now().to_rfc3339()`) are abstracted as `Nat`
  time points supplied by the per-call environment `Env`; RFC 3339 UTC
  strings compare chronologically, so `≤` on `Nat` models their order.
* The external collaborators' failure modes (store open, serialization,
  durable flush, each relational write) are per-call booleans in `Env` /
  `RelEnv`; the spec treats these collaborators as opaque and fallible.
* The document store keeps an in-memory map (`mem`, read by `get`, mutated
  by `set`/`delete`) and a durable file (`disk`, overwritten from `mem` by a
  successful `save()` flush). Only the key `"status"` is ever used, so each
  is an `Option Json`.
* Rust `Result<T, E>` is `Except String T`; a state-mutating operation
  returns its result paired with the updated store state.
-/

inductive Json where
  | null : Json
  | bool : Bool → Json
  | num : Nat → Json
  | str : String → Json
  | arr : List Json → Json
  | obj : List (String × Json) → Json

/-- Field lookup in a JSON object (first occurrence); `none` on non-objects. -/
def Json.getField : Json → String → Option Json
  | .obj fields, key => fields.lookup key
  | _, _ => none

def Json.asString : Json → Option String
  | .str s => some s
  | _ => none

def Json.asBool : Json → Option Bool
  | .bool b => some b
  | _ => none

def Json.asNat : Json → Option Nat
  | .num n => some n
  | _ => none

/-- `ModelStatus` struct: per-capability download state strings. -/
structure ModelStatus where
  parakeet : String
  summary : String
deriving DecidableEq, Repr

/-- `OnboardingStatus` struct. `current_step` is a Rust `u8`, embedded as a
`Nat` that deserialization constrains to `< 256`; `last_updated` is the
abstracted timestamp. -/
structure OnboardingStatus where
  version : String
  completed : Bool
  current_step : Nat
  model_status : ModelStatus
  last_updated : Nat
deriving DecidableEq, Repr

/-- `impl Default for OnboardingStatus`; `now` is the construction time used
for `last_updated`. -/
def OnboardingStatus.default (now : Nat) : OnboardingStatus :=
  { version := "1.0"
    completed := false
    current_step := 1
    model_status := { parakeet := "not_downloaded", summary := "not_downloaded" }
    last_updated := now }

/-- `serde_json::to_value` output for `ModelStatus` (derive semantics). -/
def ModelStatus.toValue (m : ModelStatus) : Json :=
  Json.obj [("parakeet", Json.str m.parakeet), ("summary", Json.str m.summary)]

/-- `serde_json::to_value` output for `OnboardingStatus` (derive semantics). -/
def OnboardingStatus.toValue (s : OnboardingStatus) : Json :=
  Json.obj
    [("version", Json.str s.version),
     ("completed", Json.bool s.completed),
     ("current_step", Json.num s.current_step),
     ("model_status", s.model_status.toValue),
     ("last_updated", Json.num s.last_updated)]

/-- `serde_json::from_value::<ModelStatus>` (derive semantics): both string
fields required. -/
def ModelStatus.fromValue (j : Json) : Option ModelStatus :=
  match (j.getField "parakeet").bind Json.asString,
        (j.getField "summary").bind Json.asString with
  | some p, some s => some { parakeet := p, summary := s }
  | _, _ => none

/-- `serde_json::from_value::<OnboardingStatus>` (derive semantics): every
field required with its declared type, `current_step` within `u8` range. -/
def OnboardingStatus.fromValue (j : Json) : Option OnboardingStatus :=
  match (j.getField "version").bind Json.asString,
        (j.getField "completed").bind Json.asBool,
        (j.getField "current_step").bind Json.asNat,
        (j.getField "model_status").bind ModelStatus.fromValue,
        (j.getField "last_updated").bind Json.asNat with
  | some v, some c, some step, some ms, some lu =>
    if step < 256 then
      some { version := v, completed := c, current_step := step,
             model_status := ms, last_updated := lu }
    else none
  | _, _, _, _, _ => none

/-- Modelled from the spec: the document store collaborator (§6), absent from
`src/` (it is the external `tauri_plugin_store` crate). `mem` is the
in-memory value under the `"status"` key (read by `get`, changed by
`set`/`delete`); `disk` is the durable copy, rewritten from `mem` by a
successful `save()` flush. -/
structure KvStore where
  mem : Option Json
  disk : Option Json

/-- Modelled from the spec: the per-call outcomes of the opaque external
collaborators — whether `app.store(..)` succeeds (`openOk`), whether
`serde_json::to_value` succeeds (`serOk`), whether the durable flush
`store.save()` succeeds (`flushOk`) — and the current clock (`now`). -/
structure Env where
  openOk : Bool
  serOk : Bool
  flushOk : Bool
  now : Nat
deriving DecidableEq, Repr

/-- `load_onboarding_status`: defaults when the store cannot be opened, when
no `"status"` key exists, or when the stored value fails to deserialize. -/
def load_onboarding_status (env : Env) (st : KvStore) : Except String OnboardingStatus :=
  if env.openOk = false then
    Except.ok (OnboardingStatus.default env.now)
  else
    match st.mem with
    | some value =>
      match OnboardingStatus.fromValue value with
      | some s => Except.ok s
      | none => Except.ok (OnboardingStatus.default env.now)
    | none => Except.ok (OnboardingStatus.default env.now)

/-- `save_onboarding_status`: open (error fatal), stamp `last_updated` to now,
serialize (error fatal), `set` the key in memory, flush (error fatal,
distinct message). -/
def save_onboarding_status (env : Env) (status : OnboardingStatus) (st : KvStore) :
    Except String Unit × KvStore :=
  if env.openOk = false then
    (Except.error "Failed to access onboarding store", st)
  else
    let stamped := { status with last_updated := env.now }
    if env.serOk = false then
      (Except.error "Failed to serialize onboarding status", st)
    else
      let statusValue := stamped.toValue
      let newMem := some statusValue
      if env.flushOk = false then
        (Except.error "Failed to save onboarding store to disk",
         { mem := newMem, disk := st.disk })
      else
        (Except.ok (), { mem := newMem, disk := newMem })

/-- `reset_onboarding_status`: open (error fatal), delete the `"status"` key,
flush (error fatal, distinct message). -/
def reset_onboarding_status (env : Env) (st : KvStore) :
    Except String Unit × KvStore :=
  if env.openOk = false then
    (Except.error "Failed to access onboarding store", st)
  else
    let newMem : Option Json := none
    if env.flushOk = false then
      (Except.error "Failed to save onboarding store after reset",
       { mem := newMem, disk := st.disk })
    else
      (Except.ok (), { mem := newMem, disk := newMem })

/-- `get_onboarding_status` command: load (its errors mapped), then re-open
the store (propagating open failure as an error) and report `none` exactly
when the `"status"` key is absent. -/
def get_onboarding_status (env : Env) (st : KvStore) :
    Except String (Option OnboardingStatus) :=
  match load_onboarding_status env st with
  | Except.error e => Except.error ("Failed to load onboarding status: " ++ e)
  | Except.ok status =>
    if env.openOk = false then
      Except.error "Failed to access store"
    else
      match st.mem with
      | none => Except.ok none
      | some _ => Except.ok (some status)

/-- `save_onboarding_status_cmd`: thin error-mapping wrapper. -/
def save_onboarding_status_cmd (env : Env) (status : OnboardingStatus) (st : KvStore) :
    Except String Unit × KvStore :=
  match save_onboarding_status env status st with
  | (Except.ok _, st') => (Except.ok (), st')
  | (Except.error e, st') =>
    (Except.error ("Failed to save onboarding status: " ++ e), st')

/-- `reset_onboarding_status_cmd`: thin error-mapping wrapper. -/
def reset_onboarding_status_cmd (env : Env) (st : KvStore) :
    Except String Unit × KvStore :=
  match reset_onboarding_status env st with
  | (Except.ok _, st') => (Except.ok (), st')
  | (Except.error e, st') =>
    (Except.error ("Failed to reset onboarding status: " ++ e), st')

/-- Modelled from the spec: the relational settings repository (§6), absent
from `src/` (`SettingsRepository` lives elsewhere in the repository). One
upsert slot per capability. -/
structure SettingsDb where
  modelConfig : Option (String × String × String × Option String)
  transcriptConfig : Option (String × String)
deriving DecidableEq, Repr

/-- Modelled from the spec: per-call success of each opaque relational write. -/
structure RelEnv where
  modelWriteOk : Bool
  transcriptWriteOk : Bool
deriving DecidableEq, Repr

/-- Modelled from the spec: `SettingsRepository::save_model_config` as an
opaque fallible upsert keyed by the summary capability. -/
def save_model_config (renv : RelEnv) (provider model whisperModel : String)
    (endpoint : Option String) (db : SettingsDb) : Except String Unit × SettingsDb :=
  if renv.modelWriteOk = false then
    (Except.error "model config write failed", db)
  else
    (Except.ok (), { db with modelConfig := some (provider, model, whisperModel, endpoint) })

/-- Modelled from the spec: `SettingsRepository::save_transcript_config` as an
opaque fallible upsert keyed by the transcription capability. -/
def save_transcript_config (renv : RelEnv) (provider model : String) (db : SettingsDb) :
    Except String Unit × SettingsDb :=
  if renv.transcriptWriteOk = false then
    (Except.error "transcript config write failed", db)
  else
    (Except.ok (), { db with transcriptConfig := some (provider, model) })

/-- `complete_onboarding` command: load, mutate to the terminal state, save to
the document store (abort on failure), then the summary-model write and the
transcription write against the relational store, each returning immediately
on failure. -/
def complete_onboarding (env : Env) (renv : RelEnv) (summary_model : String)
    (st : KvStore) (db : SettingsDb) :
    Except String Unit × KvStore × SettingsDb :=
  match load_onboarding_status env st with
  | Except.error e =>
    (Except.error ("Failed to load onboarding status: " ++ e), st, db)
  | Except.ok s0 =>
    let status := { s0 with
      completed := true
      current_step := 5
      model_status := { parakeet := "downloaded", summary := "downloaded" } }
    match save_onboarding_status env status st with
    | (Except.error e, st') =>
      (Except.error ("Failed to save completed onboarding status: " ++ e), st', db)
    | (Except.ok _, st') =>
      match save_model_config renv "builtin-ai" summary_model "large-v3" none db with
      | (Except.error e, db') =>
        (Except.error ("Failed to save summary model config: " ++ e), st', db')
      | (Except.ok _, db') =>
        match save_transcript_config renv "parakeet" "parakeet-tdt-0.6b-v3-int8" db' with
        | (Except.error e, db'') =>
          (Except.error ("Failed to save transcription model config: " ++ e), st', db'')
        | (Except.ok _, db'') => (Except.ok (), st', db'')

/-! ## Helper lemmas -/

/-- The derive-semantics encode/decode round-trips on any status whose
`current_step` fits in a `u8`. -/
theorem fromValue_toValue (s : OnboardingStatus) (h : s.current_step < 256) :
    OnboardingStatus.fromValue s.toValue = some s := by
  obtain ⟨v, c, step, ⟨p, su⟩, lu⟩ := s
  show (if step < 256 then
    some ({ version := v, completed := c, current_step := step,
            model_status := { parakeet := p, summary := su },
            last_updated := lu } : OnboardingStatus) else none) = _
  exact if_pos h

/-! ## Claim theorems -/

/-- C8: serializing the default `OnboardingStatus` to JSON and deserializing
it back yields the default exactly, and the default has `version = "1.0"`,
`completed = false`, `current_step = 1` and both model-status fields
`"not_downloaded"`. -/
theorem default_status_roundtrip (t : Nat) :
    OnboardingStatus.fromValue (OnboardingStatus.default t).toValue =
      some (OnboardingStatus.default t) ∧
    (OnboardingStatus.default t).version = "1.0" ∧
    (OnboardingStatus.default t).completed = false ∧
    (OnboardingStatus.default t).current_step = 1 ∧
    (OnboardingStatus.default t).model_status.parakeet = "not_downloaded" ∧
    (OnboardingStatus.default t).model_status.summary = "not_downloaded" :=
  ⟨fromValue_toValue _ (by norm_num [OnboardingStatus.default]),
   rfl, rfl, rfl, rfl, rfl⟩

/-- C3: `load_onboarding_status` never returns an error: it yields the default
status when the store cannot be opened, when there is no status key, or when
the stored value fails to deserialize, and the stored status otherwise. -/
theorem load_onboarding_status_never_errors (env : Env) (st : KvStore) :
    (∃ s, load_onboarding_status env st = Except.ok s) ∧
    (env.openOk = false →
      load_onboarding_status env st = Except.ok (OnboardingStatus.default env.now)) ∧
    (env.openOk = true → st.mem = none →
      load_onboarding_status env st = Except.ok (OnboardingStatus.default env.now)) ∧
    (∀ v, env.openOk = true → st.mem = some v → OnboardingStatus.fromValue v = none →
      load_onboarding_status env st = Except.ok (OnboardingStatus.default env.now)) ∧
    (∀ v s, env.openOk = true → st.mem = some v → OnboardingStatus.fromValue v = some s →
      load_onboarding_status env st = Except.ok s) := by
  obtain ⟨o, se, f, now⟩ := env
  obtain ⟨mem, disk⟩ := st
  unfold load_onboarding_status
  cases o with
  | false => simp
  | true =>
    cases mem with
    | none => simp
    | some v =>
      cases hv : OnboardingStatus.fromValue v with
      | none =>
        simp only [hv]
        simp
        intro v1 s hv1 hs
        subst hv1
        rw [hv] at hs
        cases hs
      | some s0 =>
        simp only [hv]
        simp
        constructor
        · intro hbad
          rw [hv] at hbad
          cases hbad
        · intro v1 s hv1 hs
          subst hv1
          rw [hv] at hs
          exact Option.some_inj.mp hs

/-- Witness for C3: all four cases of `load_onboarding_status_never_errors`
exercised at concrete inputs. -/
theorem load_onboarding_status_never_errors_witness :
    load_onboarding_status ⟨false, true, true, 2⟩ ⟨none, none⟩ =
      Except.ok (OnboardingStatus.default 2) ∧
    load_onboarding_status ⟨true, true, true, 3⟩ ⟨none, none⟩ =
      Except.ok (OnboardingStatus.default 3) ∧
    load_onboarding_status ⟨true, true, true, 4⟩ ⟨some Json.null, none⟩ =
      Except.ok (OnboardingStatus.default 4) ∧
    load_onboarding_status ⟨true, true, true, 4⟩
        ⟨some (OnboardingStatus.default 9).toValue, none⟩ =
      Except.ok (OnboardingStatus.default 9) :=
  ⟨(load_onboarding_status_never_errors ⟨false, true, true, 2⟩ ⟨none, none⟩).2.1 rfl,
   (load_onboarding_status_never_errors ⟨true, true, true, 3⟩ ⟨none, none⟩).2.2.1 rfl rfl,
   (load_onboarding_status_never_errors ⟨true, true, true, 4⟩
     ⟨some Json.null, none⟩).2.2.2.1 Json.null rfl rfl rfl,
   (load_onboarding_status_never_errors ⟨true, true, true, 4⟩
     ⟨some (OnboardingStatus.default 9).toValue, none⟩).2.2.2.2
     (OnboardingStatus.default 9).toValue (OnboardingStatus.default 9) rfl rfl
     (fromValue_toValue _ (by norm_num [OnboardingStatus.default]))⟩

/-- C10: when the store opens and holds a status key whose value fails to
deserialize, `get_onboarding_status` returns `some` of the default status
(reported as initialized with defaulted contents, not as never initialized). -/
theorem get_onboarding_status_corrupt_defaults (env : Env) (st : KvStore) (v : Json)
    (hopen : env.openOk = true) (hmem : st.mem = some v)
    (hbad : OnboardingStatus.fromValue v = none) :
    get_onboarding_status env st = Except.ok (some (OnboardingStatus.default env.now)) := by
  obtain ⟨o, se, f, now⟩ := env
  obtain ⟨mem, disk⟩ := st
  simp only at hopen hmem
  subst hopen hmem
  simp [get_onboarding_status, load_onboarding_status, hbad]

/-- Witness for C10: a store holding `null` under the status key. -/
theorem get_onboarding_status_corrupt_defaults_witness :
    get_onboarding_status ⟨true, true, true, 6⟩ ⟨some Json.null, none⟩ =
      Except.ok (some (OnboardingStatus.default 6)) :=
  get_onboarding_status_corrupt_defaults ⟨true, true, true, 6⟩
    ⟨some Json.null, none⟩ Json.null rfl rfl rfl

/-- C5 counterexample: with the backing store unopenable, the get command
returns an error — not a defaulted result — because its existence check
re-opens the store and propagates the failure. -/
theorem get_onboarding_status_open_failure_is_error :
    get_onboarding_status ⟨false, true, true, 0⟩ ⟨none, none⟩ =
      Except.error "Failed to access store" := rfl

/-- C5 amended: when the backing store cannot be opened, the internal load
path is non-fatal (it yields the default status), but `get_onboarding_status`
itself returns an error, propagating the open failure of its store-existence
check, for every store state. -/
theorem get_onboarding_status_open_failure (env : Env) (st : KvStore)
    (h : env.openOk = false) :
    load_onboarding_status env st = Except.ok (OnboardingStatus.default env.now) ∧
    get_onboarding_status env st = Except.error "Failed to access store" := by
  obtain ⟨o, se, f, now⟩ := env
  simp only at h
  subst h
  exact ⟨rfl, rfl⟩

/-- Witness for the amended C5 at a concrete unopenable store. -/
theorem get_onboarding_status_open_failure_witness :
    load_onboarding_status ⟨false, true, true, 1⟩ ⟨some Json.null, none⟩ =
      Except.ok (OnboardingStatus.default 1) ∧
    get_onboarding_status ⟨false, true, true, 1⟩ ⟨some Json.null, none⟩ =
      Except.error "Failed to access store" :=
  get_onboarding_status_open_failure ⟨false, true, true, 1⟩ ⟨some Json.null, none⟩ rfl

/-- C4: `save_onboarding_status` errors when the store cannot be opened, when
serialization fails, and when the durable flush fails, the flush message
distinct from the open and serialize messages; and on every path that writes,
the written document carries `last_updated = env.now`, not the caller value. -/
theorem save_onboarding_status_errors_and_stamp (env : Env) (status : OnboardingStatus)
    (st : KvStore) :
    (env.openOk = false →
      save_onboarding_status env status st =
        (Except.error "Failed to access onboarding store", st)) ∧
    (env.openOk = true → env.serOk = false →
      save_onboarding_status env status st =
        (Except.error "Failed to serialize onboarding status", st)) ∧
    (env.openOk = true → env.serOk = true → env.flushOk = false →
      (save_onboarding_status env status st).1 =
        Except.error "Failed to save onboarding store to disk" ∧
      (save_onboarding_status env status st).2.disk = st.disk) ∧
    ("Failed to save onboarding store to disk" ≠ "Failed to access onboarding store" ∧
     "Failed to save onboarding store to disk" ≠ "Failed to serialize onboarding status") ∧
    (env.openOk = true → env.serOk = true →
      (save_onboarding_status env status st).2.mem =
        some ({ status with last_updated := env.now } : OnboardingStatus).toValue ∧
      (env.flushOk = true →
        (save_onboarding_status env status st).2.disk =
          some ({ status with last_updated := env.now } : OnboardingStatus).toValue)) := by
  obtain ⟨o, se, f, now⟩ := env
  cases o <;> cases se <;> cases f <;>
    simp [save_onboarding_status]

/-- Witness for C4: each error path and the stamping exercised concretely. -/
theorem save_onboarding_status_errors_and_stamp_witness :
    save_onboarding_status ⟨false, true, true, 0⟩ (OnboardingStatus.default 0) ⟨none, none⟩ =
      (Except.error "Failed to access onboarding store", (⟨none, none⟩ : KvStore)) ∧
    save_onboarding_status ⟨true, false, true, 0⟩ (OnboardingStatus.default 0) ⟨none, none⟩ =
      (Except.error "Failed to serialize onboarding status", (⟨none, none⟩ : KvStore)) ∧
    (save_onboarding_status ⟨true, true, false, 0⟩ (OnboardingStatus.default 0) ⟨none, none⟩).1 =
      Except.error "Failed to save onboarding store to disk" ∧
    (save_onboarding_status ⟨true, true, true, 7⟩ (OnboardingStatus.default 3) ⟨none, none⟩).2.disk =
      some (OnboardingStatus.default 7).toValue := by
  refine ⟨?_, ?_, ?_, ?_⟩
  · exact (save_onboarding_status_errors_and_stamp ⟨false, true, true, 0⟩
      (OnboardingStatus.default 0) ⟨none, none⟩).1 rfl
  · exact (save_onboarding_status_errors_and_stamp ⟨true, false, true, 0⟩
      (OnboardingStatus.default 0) ⟨none, none⟩).2.1 rfl rfl
  · exact ((save_onboarding_status_errors_and_stamp ⟨true, true, false, 0⟩
      (OnboardingStatus.default 0) ⟨none, none⟩).2.2.1 rfl rfl rfl).1
  · exact ((save_onboarding_status_errors_and_stamp ⟨true, true, true, 7⟩
      (OnboardingStatus.default 3) ⟨none, none⟩).2.2.2.2 rfl rfl).2 rfl

/-- C6: after any successful reset, both the in-memory and durable copies
hold no status key; a second reset under the same conditions also succeeds
(deleting an absent key is not an error); and the next get, with the store
openable, returns `none` (never initialized), not a present default. -/
theorem reset_onboarding_status_idempotent (env env2 : Env) (st : KvStore)
    (h : (reset_onboarding_status env st).1 = Except.ok ()) :
    (reset_onboarding_status env st).2.mem = none ∧
    (reset_onboarding_status env st).2.disk = none ∧
    (reset_onboarding_status env ((reset_onboarding_status env st).2)).1 = Except.ok () ∧
    (env2.openOk = true →
      get_onboarding_status env2 ((reset_onboarding_status env st).2) = Except.ok none) := by
  obtain ⟨o, se, f, now⟩ := env
  cases o with
  | false => simp [reset_onboarding_status] at h
  | true =>
    cases f with
    | false => simp [reset_onboarding_status] at h
    | true =>
      refine ⟨rfl, rfl, rfl, ?_⟩
      intro h2
      obtain ⟨o2, se2, f2, now2⟩ := env2
      simp only at h2
      subst h2
      rfl

/-- Witness for C6 on a store that previously held a (corrupt) document. -/
theorem reset_onboarding_status_idempotent_witness :
    (reset_onboarding_status ⟨true, true, true, 5⟩
        ⟨some Json.null, some Json.null⟩).2.mem = none ∧
    (reset_onboarding_status ⟨true, true, true, 5⟩
        (reset_onboarding_status ⟨true, true, true, 5⟩
          ⟨some Json.null, some Json.null⟩).2).1 = Except.ok () ∧
    get_onboarding_status ⟨true, true, true, 6⟩
        (reset_onboarding_status ⟨true, true, true, 5⟩
          ⟨some Json.null, some Json.null⟩).2 = Except.ok none := by
  obtain ⟨h1, h2, h3, h4⟩ := reset_onboarding_status_idempotent ⟨true, true, true, 5⟩
    ⟨true, true, true, 6⟩ ⟨some Json.null, some Json.null⟩ rfl
  exact ⟨h1, h3, h4 rfl⟩

/-- C7: loading after a successful save of a valid status D returns a status
equal to D in every field except `last_updated`, which is at least
D's `last_updated`. -/
theorem load_after_save (env env2 : Env) (d : OnboardingStatus) (st : KvStore)
    (hstep : d.current_step < 256) (hpast : d.last_updated ≤ env.now)
    (hopen : env.openOk = true) (hser : env.serOk = true) (hflush : env.flushOk = true)
    (hopen2 : env2.openOk = true) :
    ∃ r, load_onboarding_status env2 ((save_onboarding_status env d st).2) =
        Except.ok r ∧
      r.version = d.version ∧ r.completed = d.completed ∧
      r.current_step = d.current_step ∧ r.model_status = d.model_status ∧
      d.last_updated ≤ r.last_updated := by
  obtain ⟨o, se, f, now⟩ := env
  obtain ⟨o2, se2, f2, now2⟩ := env2
  simp only at hopen hser hflush hopen2 hpast
  subst hopen; subst hser; subst hflush; subst hopen2
  refine ⟨{ d with last_updated := now }, ?_, rfl, rfl, rfl, rfl, hpast⟩
  have hrt : OnboardingStatus.fromValue
      ({ d with last_updated := now } : OnboardingStatus).toValue =
      some { d with last_updated := now } := fromValue_toValue _ hstep
  simp [save_onboarding_status, load_onboarding_status, hrt]

/-- Witness for C7: save then load of the default document. -/
theorem load_after_save_witness :
    ∃ r, load_onboarding_status ⟨true, true, true, 9⟩
        ((save_onboarding_status ⟨true, true, true, 5⟩ (OnboardingStatus.default 2)
          ⟨none, none⟩).2) = Except.ok r ∧
      r.version = (OnboardingStatus.default 2).version ∧
      r.completed = (OnboardingStatus.default 2).completed ∧
      r.current_step = (OnboardingStatus.default 2).current_step ∧
      r.model_status = (OnboardingStatus.default 2).model_status ∧
      (OnboardingStatus.default 2).last_updated ≤ r.last_updated :=
  load_after_save ⟨true, true, true, 5⟩ ⟨true, true, true, 9⟩ (OnboardingStatus.default 2)
    ⟨none, none⟩ (by norm_num [OnboardingStatus.default])
    (by norm_num [OnboardingStatus.default]) rfl rfl rfl rfl

/-- Helper: `load_onboarding_status` always returns `Except.ok`. -/
theorem load_onboarding_status_isOk (env : Env) (st : KvStore) :
    ∃ s, load_onboarding_status env st = Except.ok s := by
  obtain ⟨o, se, f, now⟩ := env
  obtain ⟨mem, disk⟩ := st
  unfold load_onboarding_status
  cases o with
  | false => exact ⟨_, rfl⟩
  | true =>
    cases mem with
    | none => exact ⟨_, rfl⟩
    | some v =>
      cases hv : OnboardingStatus.fromValue v with
      | none => simp [hv]
      | some s => simp [hv]

/-- C1: in `complete_onboarding` the completed document is persisted before
any relational write: if the document-store save fails (open, serialize or
flush failure), the operation surfaces an error and the relational store is
untouched; if the save succeeds, the durable document store holds the
completed document (completed = true, step 5, both model fields
"downloaded", stamped with the current time) whatever the relational
writes then do — a relational failure does not roll it back. -/
theorem complete_onboarding_save_first (env : Env) (renv : RelEnv)
    (summary_model : String) (st : KvStore) (db : SettingsDb) :
    (¬ (env.openOk = true ∧ env.serOk = true ∧ env.flushOk = true) →
      (∃ e, (complete_onboarding env renv summary_model st db).1 = Except.error e) ∧
      (complete_onboarding env renv summary_model st db).2.2 = db) ∧
    (env.openOk = true → env.serOk = true → env.flushOk = true →
      ∃ s, (complete_onboarding env renv summary_model st db).2.1.disk =
          some (OnboardingStatus.toValue s) ∧
        s.completed = true ∧ s.current_step = 5 ∧
        s.model_status.parakeet = "downloaded" ∧
        s.model_status.summary = "downloaded" ∧
        s.last_updated = env.now) := by
  obtain ⟨s0, hload⟩ := load_onboarding_status_isOk env st
  obtain ⟨o, se, f, now⟩ := env
  obtain ⟨mem, disk⟩ := st
  obtain ⟨mw, tw⟩ := renv
  cases o <;> cases se <;> cases f <;> cases mw <;> cases tw <;>
    simp [complete_onboarding, hload, save_onboarding_status,
          save_model_config, save_transcript_config] <;>
    exact ⟨_, rfl, rfl, rfl, rfl, rfl, rfl⟩

/-- Witness for C1: a save-path failure leaves the relational store untouched,
and a successful save persists the completed document even though the
summary-model relational write then fails. -/
theorem complete_onboarding_save_first_witness :
    (∃ e, (complete_onboarding ⟨false, true, true, 0⟩ ⟨true, true⟩ "gemma3:1b"
        ⟨none, none⟩ ⟨none, none⟩).1 = Except.error e) ∧
    (complete_onboarding ⟨false, true, true, 0⟩ ⟨true, true⟩ "gemma3:1b"
        ⟨none, none⟩ ⟨none, none⟩).2.2 = (⟨none, none⟩ : SettingsDb) ∧
    (∃ s, (complete_onboarding ⟨true, true, true, 7⟩ ⟨false, true⟩ "gemma3:1b"
        ⟨none, none⟩ ⟨none, none⟩).2.1.disk = some (OnboardingStatus.toValue s) ∧
      s.completed = true ∧ s.current_step = 5 ∧
      s.model_status.parakeet = "downloaded" ∧
      s.model_status.summary = "downloaded" ∧
      s.last_updated = 7) := by
  obtain ⟨h1, h2⟩ := complete_onboarding_save_first ⟨false, true, true, 0⟩ ⟨true, true⟩
    "gemma3:1b" ⟨none, none⟩ ⟨none, none⟩
  obtain ⟨h3, h4⟩ := complete_onboarding_save_first ⟨true, true, true, 7⟩ ⟨false, true⟩
    "gemma3:1b" ⟨none, none⟩ ⟨none, none⟩
  have hx := h1 (by simp)
  exact ⟨hx.1, hx.2, h4 rfl rfl rfl⟩

/-- C2 counterexample: with the summary-model write failing while the
transcription write would succeed, `complete_onboarding` aborts with only the
summary error and the transcription configuration is never written — the
second capability write is not attempted. -/
theorem complete_onboarding_summary_failure_skips_transcript :
    (complete_onboarding ⟨true, true, true, 3⟩ ⟨false, true⟩ "gemma3:1b"
        ⟨none, none⟩ ⟨none, none⟩).1 =
      Except.error ("Failed to save summary model config: " ++
        "model config write failed") ∧
    (complete_onboarding ⟨true, true, true, 3⟩ ⟨false, true⟩ "gemma3:1b"
        ⟨none, none⟩ ⟨none, none⟩).2.2.transcriptConfig = none :=
  ⟨rfl, rfl⟩

/-- C2 amended: the two relational writes are sequenced fail-fast, not
independently: when the summary-model write fails, its error is surfaced and
the transcription write is not attempted (the relational store is unchanged);
the transcription write runs only after the summary write succeeds, and its
failure is likewise surfaced with the summary configuration already written. -/
theorem complete_onboarding_relational_failfast (env : Env) (renv : RelEnv)
    (summary_model : String) (st : KvStore) (db : SettingsDb)
    (hopen : env.openOk = true) (hser : env.serOk = true) (hflush : env.flushOk = true) :
    (renv.modelWriteOk = false →
      (complete_onboarding env renv summary_model st db).1 =
        Except.error ("Failed to save summary model config: " ++
          "model config write failed") ∧
      (complete_onboarding env renv summary_model st db).2.2 = db) ∧
    (renv.modelWriteOk = true → renv.transcriptWriteOk = false →
      (complete_onboarding env renv summary_model st db).1 =
        Except.error ("Failed to save transcription model config: " ++
          "transcript config write failed") ∧
      (complete_onboarding env renv summary_model st db).2.2.modelConfig =
        some ("builtin-ai", summary_model, "large-v3", none) ∧
      (complete_onboarding env renv summary_model st db).2.2.transcriptConfig =
        db.transcriptConfig) := by
  obtain ⟨s0, hload⟩ := load_onboarding_status_isOk env st
  obtain ⟨o, se, f, now⟩ := env
  obtain ⟨mw, tw⟩ := renv
  obtain ⟨mem, disk⟩ := st
  simp only at hopen hser hflush
  subst hopen; subst hser; subst hflush
  cases mw <;> cases tw <;>
    simp [complete_onboarding, hload, save_onboarding_status,
          save_model_config, save_transcript_config]

/-- Witness for the amended C2: both fail-fast branches at concrete inputs. -/
theorem complete_onboarding_relational_failfast_witness :
    (complete_onboarding ⟨true, true, true, 2⟩ ⟨false, true⟩ "gemma3:4b"
        ⟨none, none⟩ ⟨none, none⟩).1 =
      Except.error ("Failed to save summary model config: " ++
        "model config write failed") ∧
    (complete_onboarding ⟨true, true, true, 2⟩ ⟨true, false⟩ "gemma3:4b"
        ⟨none, none⟩ ⟨none, none⟩).1 =
      Except.error ("Failed to save transcription model config: " ++
        "transcript config write failed") := by
  obtain ⟨h1, h2⟩ := complete_onboarding_relational_failfast ⟨true, true, true, 2⟩
    ⟨false, true⟩ "gemma3:4b" ⟨none, none⟩ ⟨none, none⟩ rfl rfl rfl
  obtain ⟨h3, h4⟩ := complete_onboarding_relational_failfast ⟨true, true, true, 2⟩
    ⟨true, false⟩ "gemma3:4b" ⟨none, none⟩ ⟨none, none⟩ rfl rfl rfl
  exact ⟨(h1 rfl).1, (h4 rfl rfl).1⟩

/-- C9 counterexample: a store durably holding a completed document, followed
by a plain save of the default (not-completed) status, ends with a persisted
document whose completed flag is false — the save command does not protect
the completed flag. -/
theorem completed_flag_overwritten_by_save :
    (save_onboarding_status_cmd ⟨true, true, true, 9⟩ (OnboardingStatus.default 8)
        ⟨some (OnboardingStatus.toValue
            { OnboardingStatus.default 3 with completed := true, current_step := 5 }),
         some (OnboardingStatus.toValue
            { OnboardingStatus.default 3 with completed := true, current_step := 5 })⟩).1 =
      Except.ok () ∧
    (save_onboarding_status_cmd ⟨true, true, true, 9⟩ (OnboardingStatus.default 8)
        ⟨some (OnboardingStatus.toValue
            { OnboardingStatus.default 3 with completed := true, current_step := 5 }),
         some (OnboardingStatus.toValue
            { OnboardingStatus.default 3 with completed := true, current_step := 5 })⟩).2.disk =
      some (OnboardingStatus.toValue (OnboardingStatus.default 9)) ∧
    (OnboardingStatus.default 9).completed = false :=
  ⟨rfl, rfl, rfl⟩

/-- A durably persisted document that deserializes with `completed = true`. -/
def CompletedPersisted (st : KvStore) : Prop :=
  ∃ v s, st.disk = some v ∧ OnboardingStatus.fromValue v = some s ∧ s.completed = true

/-- Helper: every path of `save_onboarding_status` preserves a persisted
completed document when the status being saved itself has `completed = true`
(and a representable step). -/
theorem save_preserves_completed (env : Env) (status : OnboardingStatus) (st : KvStore)
    (hcomp : status.completed = true) (hstep : status.current_step < 256)
    (hc : CompletedPersisted st) :
    CompletedPersisted (save_onboarding_status env status st).2 := by
  obtain ⟨o, se, f, now⟩ := env
  cases o with
  | false => exact hc
  | true =>
    cases se with
    | false => exact hc
    | true =>
      cases f with
      | false =>
        obtain ⟨v, s, hdisk, hfv, hs⟩ := hc
        exact ⟨v, s, hdisk, hfv, hs⟩
      | true =>
        exact ⟨({ status with last_updated := now } : OnboardingStatus).toValue,
               { status with last_updated := now }, rfl,
               fromValue_toValue _ hstep, hcomp⟩

/-- C9 amended: `completed = true` is one-way only against the complete
operation and completed-preserving saves: once the durable store holds a
completed document, `complete_onboarding` (under every environment) and any
`save_onboarding_status` / `save_onboarding_status_cmd` whose caller-supplied
status has `completed = true` (and a `u8`-representable step) leave a
completed document persisted; a save whose argument has `completed = false`
overwrites the flag, so such saves must be excluded along with reset. -/
theorem completed_persisted_preserved (env : Env) (renv : RelEnv)
    (summary_model : String) (st : KvStore) (db : SettingsDb)
    (status : OnboardingStatus) (hc : CompletedPersisted st) :
    CompletedPersisted (complete_onboarding env renv summary_model st db).2.1 ∧
    (status.completed = true → status.current_step < 256 →
      CompletedPersisted (save_onboarding_status env status st).2) ∧
    (status.completed = true → status.current_step < 256 →
      CompletedPersisted (save_onboarding_status_cmd env status st).2) := by
  refine ⟨?_, fun h1 h2 => save_preserves_completed env status st h1 h2 hc, ?_⟩
  · obtain ⟨s0, hload⟩ := load_onboarding_status_isOk env st
    have h := save_preserves_completed env
      { s0 with
        completed := true
        current_step := 5
        model_status := { parakeet := "downloaded", summary := "downloaded" } }
      st rfl (by norm_num) hc
    rcases hs : save_onboarding_status env
      { s0 with
        completed := true
        current_step := 5
        model_status := { parakeet := "downloaded", summary := "downloaded" } } st
      with ⟨r, st'⟩
    rw [hs] at h
    obtain ⟨mw, tw⟩ := renv
    cases r <;> cases mw <;> cases tw <;>
      simp [complete_onboarding, hload, hs, save_model_config,
            save_transcript_config] <;>
      exact h
  · intro h1 h2
    have h := save_preserves_completed env status st h1 h2 hc
    rcases hs : save_onboarding_status env status st with ⟨r, st'⟩
    rw [hs] at h
    cases r <;> simp [save_onboarding_status_cmd, hs] <;> exact h

/-- Witness for the amended C9: a concrete completed store survives a failing
complete run and a completed-true save. -/
theorem completed_persisted_preserved_witness :
    CompletedPersisted (complete_onboarding ⟨true, true, true, 4⟩ ⟨false, false⟩
        "gemma3:1b"
        ⟨some (OnboardingStatus.toValue
            { OnboardingStatus.default 3 with completed := true, current_step := 5 }),
         some (OnboardingStatus.toValue
            { OnboardingStatus.default 3 with completed := true, current_step := 5 })⟩
        ⟨none, none⟩).2.1 ∧
    CompletedPersisted (save_onboarding_status ⟨true, true, true, 4⟩
        { OnboardingStatus.default 2 with completed := true }
        ⟨some (OnboardingStatus.toValue
            { OnboardingStatus.default 3 with completed := true, current_step := 5 }),
         some (OnboardingStatus.toValue
            { OnboardingStatus.default 3 with completed := true, current_step := 5 })⟩).2 := by
  obtain ⟨h1, h2, h3⟩ := completed_persisted_preserved ⟨true, true, true, 4⟩ ⟨false, false⟩
    "gemma3:1b"
    ⟨some (OnboardingStatus.toValue
        { OnboardingStatus.default 3 with completed := true, current_step := 5 }),
     some (OnboardingStatus.toValue
        { OnboardingStatus.default 3 with completed := true, current_step := 5 })⟩
    ⟨none, none⟩ { OnboardingStatus.default 2 with completed := true }
    ⟨OnboardingStatus.toValue
        { OnboardingStatus.default 3 with completed := true, current_step := 5 },
     { OnboardingStatus.default 3 with completed := true, current_step := 5 },
     rfl, rfl, rfl⟩
  exact ⟨h1, h2 rfl (by norm_num [OnboardingStatus.default])⟩
